import Mathlib

/-!
Verification of the ELF identification (`e_ident`) validation logic of
`src/main.rs` (the `elfrs` tool).

The source program reads the first 16 bytes of a file into a zero-initialised
16-byte buffer and then runs a linear chain of checks (length, magic, class,
data encoding, version, OS/ABI, ABI version).  In the source every failing
check aborts the process with `panic!`; here each panic site is represented by
the corresponding constructor of `IdentError`, so the chain becomes a total
function `parse : List Nat → Except IdentError Ident`.  The process-level
behaviour of `main` (completion vs. process abort) is recorded separately by
`mainRun : List Nat → MainOutcome`.

Bytes are modelled as natural numbers; the source only compares bytes for
equality against constants below 256, so no modular arithmetic is involved.
-/

/-- The ELF magic number (`ELFMAG = b"\x7FELF"` in the source), as the list
of its four byte values. -/
def ELFMAG : List Nat := [0x7F, 0x45, 0x4C, 0x46]

/-- Size of the ELF magic number (`SELFMAG`). -/
def SELFMAG : Nat := 4

/-- Byte index of the class field (`EI_CLASS`). -/
def EI_CLASS : Nat := 4

/-- Invalid class (`ELFCLASSNONE`). -/
def ELFCLASSNONE : Nat := 0

/-- 32-bit architecture (`ELFCLASS32`). -/
def ELFCLASS32 : Nat := 1

/-- 64-bit architecture (`ELFCLASS64`). -/
def ELFCLASS64 : Nat := 2

/-- Size of the ELF `e_ident` array (`EI_NIDENT`). -/
def EI_NIDENT : Nat := 16

/-- Byte index of the data-encoding field (`EI_DATA`). -/
def EI_DATA : Nat := 5

/-- Little-endian data encoding (`ELFDATA2LSB`). -/
def ELFDATA2LSB : Nat := 1

/-- Big-endian data encoding (`ELFDATA2MSB`). -/
def ELFDATA2MSB : Nat := 2

/-- Byte index of the ELF specification version field (`EI_VERSION`). -/
def EI_VERSION : Nat := 6

/-- Current ELF version (`EV_CURRENT`). -/
def EV_CURRENT : Nat := 1

/-- Byte index of the OS/ABI field (`EI_OSABI`). -/
def EI_OSABI : Nat := 7

/-- UNIX System V ABI (`ELFOSABI_SYSV`). -/
def ELFOSABI_SYSV : Nat := 0

/-- HP-UX ABI (`ELFOSABI_HPUX`); recognised by the wider ELF standard but not
in the supported subset of the source. -/
def ELFOSABI_HPUX : Nat := 1

/-- Linux ABI (`ELFOSABI_LINUX`). -/
def ELFOSABI_LINUX : Nat := 3

/-- Byte index of the ABI-version field (`EI_ABIVERSION`). -/
def EI_ABIVERSION : Nat := 8

/-- ELF class as decoded by the class `match` of the source: the `ELFCLASS64`
arm prints "ELF64", the `ELFCLASS32` arm prints "ELF32", every other value
panics. -/
inductive ElfClass where
  | elf32
  | elf64
deriving DecidableEq, Repr

/-- Data encoding as decoded by the endianness `match` of the source. -/
inductive DataEncoding where
  | littleEndian
  | bigEndian
deriving DecidableEq, Repr

/-- ELF specification version as decoded by the version `match` of the
source; only `EV_CURRENT` is accepted. -/
inductive ElfVersion where
  | current
deriving DecidableEq, Repr

/-- OS/ABI as decoded by the OS/ABI `match` of the source; only the supported
subset (System V, Linux) has non-panicking arms. -/
inductive OsAbi where
  | sysv
  | linux
deriving DecidableEq, Repr

/-- Classified failure, one constructor per `panic!` site of the source
(lines 128-194 of `src/main.rs`), carrying the dynamic data in scope in the
diagnostics at that site. -/
inductive IdentError where
  /-- Line 129: fewer than `EI_NIDENT` bytes were read. -/
  | truncatedHeader (available : List Nat)
  /-- Line 131: fewer than `SELFMAG` bytes were read (after the
  `EI_NIDENT` check already passed). -/
  | magicReadFailed
  /-- Line 134: the first `SELFMAG` bytes are not `ELFMAG`; the source prints
  the actual bytes before panicking. -/
  | badMagic (actual : List Nat)
  /-- Line 147: the class byte matched neither `ELFCLASS64` nor
  `ELFCLASS32`. -/
  | unsupportedClass (value : Nat)
  /-- Line 161: the data-encoding byte matched neither `ELFDATA2LSB` nor
  `ELFDATA2MSB`. -/
  | unsupportedEncoding (value : Nat)
  /-- Line 172: the version byte is not `EV_CURRENT`. -/
  | unsupportedVersion (value : Nat)
  /-- Line 186: the OS/ABI byte matched neither `ELFOSABI_SYSV` nor
  `ELFOSABI_LINUX`. -/
  | unsupportedOsAbi (value : Nat)
  /-- Line 193: the ABI-version byte is nonzero. -/
  | unsupportedAbiVersion (value : Nat)
deriving DecidableEq, Repr

/-- The decoded identification record: one field per decoded `e_ident`
field, holding the enum value selected by the corresponding `match` arm of
the source (the raw byte for the ABI version). -/
structure Ident where
  eclass : ElfClass
  data_encoding : DataEncoding
  version : ElfVersion
  os_abi : OsAbi
  abi_version : Nat
deriving DecidableEq, Repr

/-- Decode of the class byte, mirroring the class `match` (lines 139-149):
the `ELFCLASS64` arm first, then `ELFCLASS32`, then the panicking wildcard. -/
def decodeClass (b : Nat) : Except IdentError ElfClass :=
  if b = ELFCLASS64 then .ok .elf64
  else if b = ELFCLASS32 then .ok .elf32
  else .error (.unsupportedClass b)

/-- Decode of the data-encoding byte, mirroring the endianness `match`
(lines 153-163). -/
def decodeData (b : Nat) : Except IdentError DataEncoding :=
  if b = ELFDATA2LSB then .ok .littleEndian
  else if b = ELFDATA2MSB then .ok .bigEndian
  else .error (.unsupportedEncoding b)

/-- Decode of the version byte, mirroring the version `match`
(lines 167-174). -/
def decodeVersion (b : Nat) : Except IdentError ElfVersion :=
  if b = EV_CURRENT then .ok .current
  else .error (.unsupportedVersion b)

/-- Decode of the OS/ABI byte, mirroring the OS/ABI `match`
(lines 178-188): only `ELFOSABI_SYSV` and `ELFOSABI_LINUX` have
non-panicking arms. -/
def decodeOsAbi (b : Nat) : Except IdentError OsAbi :=
  if b = ELFOSABI_SYSV then .ok .sysv
  else if b = ELFOSABI_LINUX then .ok .linux
  else .error (.unsupportedOsAbi b)

/-- Final ABI-version check and record construction (lines 191-195): a
nonzero ABI-version byte panics, otherwise the run completes with all decoded
fields. -/
def checkAbi (ident : List Nat) (c : ElfClass) (d : DataEncoding)
    (v : ElfVersion) (o : OsAbi) : Except IdentError Ident :=
  let abi := ident.getD EI_ABIVERSION 0
  if abi ≠ 0 then .error (.unsupportedAbiVersion abi)
  else .ok { eclass := c, data_encoding := d, version := v, os_abi := o,
             abi_version := abi }

/-- OS/ABI section of the chain (lines 177-188) followed by the rest. -/
def checkOsAbi (ident : List Nat) (c : ElfClass) (d : DataEncoding)
    (v : ElfVersion) : Except IdentError Ident :=
  match decodeOsAbi (ident.getD EI_OSABI 0) with
  | .error e => .error e
  | .ok o => checkAbi ident c d v o

/-- Version section of the chain (lines 166-174) followed by the rest. -/
def checkVersion (ident : List Nat) (c : ElfClass) (d : DataEncoding) :
    Except IdentError Ident :=
  match decodeVersion (ident.getD EI_VERSION 0) with
  | .error e => .error e
  | .ok v => checkOsAbi ident c d v

/-- Data-encoding section of the chain (lines 152-163) followed by the
rest. -/
def checkData (ident : List Nat) (c : ElfClass) : Except IdentError Ident :=
  match decodeData (ident.getD EI_DATA 0) with
  | .error e => .error e
  | .ok d => checkVersion ident c d

/-- Field-decoding chain run after the length and magic checks
(lines 137-195): class, data encoding, version, OS/ABI, ABI version, in the
order of the source. -/
def parseFields (ident : List Nat) : Except IdentError Ident :=
  match decodeClass (ident.getD EI_CLASS 0) with
  | .error e => .error e
  | .ok c => checkData ident c

/-- Contents of the 16-byte read buffer: the source zero-initialises a
16-byte array and reads at most `EI_NIDENT` bytes into its front, so the
buffer holds the first `min length EI_NIDENT` bytes of the input followed by
the untouched zero bytes. -/
def identBuf (bs : List Nat) : List Nat :=
  bs.take EI_NIDENT ++ List.replicate (EI_NIDENT - min bs.length EI_NIDENT) 0

/-- The complete validation chain of `main` (lines 124-195) on the bytes of
the input: the length guard (line 128), the unreachable short-magic guard
(line 130), the magic comparison (line 132) and then the field chain.  Each
`panic!` site is represented by its `IdentError` constructor. -/
def parse (bs : List Nat) : Except IdentError Ident :=
  let n := min bs.length EI_NIDENT
  let ident := identBuf bs
  if n < EI_NIDENT then .error (.truncatedHeader (bs.take EI_NIDENT))
  else if n < SELFMAG then .error .magicReadFailed
  else if ident.take SELFMAG ≠ ELFMAG then .error (.badMagic (ident.take SELFMAG))
  else parseFields ident

/-- Process-level outcome of a run of `main` on a given input. -/
inductive MainOutcome where
  /-- The run reached line 195 and printed every decoded field. -/
  | completed (r : Ident)
  /-- The run aborted the whole process via `panic!` at the site classified
  by `e`. -/
  | panicked (e : IdentError)
deriving DecidableEq, Repr

/-- Process-level behaviour of `main`: in the source every classified
failure of the validation chain is a `panic!`, which terminates the process;
only a fully valid header reaches normal completion. -/
def mainRun (bs : List Nat) : MainOutcome :=
  match parse bs with
  | .ok r => .completed r
  | .error e => .panicked e

/-- C1: on the exact 16 bytes 7F 45 4C 46 02 01 01 00 00 00 00 00 00 00 00 00
the parse succeeds with class ELF64, little-endian data encoding, current
version, System V OS/ABI and ABI version 0. -/
theorem parse_canonical_elf64 :
    parse [0x7F, 0x45, 0x4C, 0x46, 2, 1, 1, 0, 0, 0, 0, 0, 0, 0, 0, 0] =
      .ok { eclass := .elf64, data_encoding := .littleEndian,
            version := .current, os_abi := .sysv, abi_version := 0 } := by
  rfl

lemma identBuf_length (bs : List Nat) : (identBuf bs).length = EI_NIDENT := by
  simp [identBuf, EI_NIDENT]
  omega

lemma identBuf_of_full {bs : List Nat} (h : bs.length = EI_NIDENT) :
    identBuf bs = bs := by
  simp [identBuf, h, List.take_of_length_le (Nat.le_of_eq h)]

lemma parse_full_magic {bs : List Nat} (h : bs.length = EI_NIDENT)
    (hm : bs.take SELFMAG = ELFMAG) : parse bs = parseFields bs := by
  have hm4 : bs.take 4 = ELFMAG := by simpa [SELFMAG] using hm
  simp [parse, identBuf_of_full h, h, hm4, EI_NIDENT, SELFMAG]

lemma parse_full_badmagic {bs : List Nat} (h : bs.length = EI_NIDENT)
    (hm : bs.take SELFMAG ≠ ELFMAG) :
    parse bs = .error (.badMagic (bs.take SELFMAG)) := by
  have hm4 : ¬bs.take 4 = ELFMAG := by simpa [SELFMAG] using hm
  simp [parse, identBuf_of_full h, h, hm4, EI_NIDENT, SELFMAG]

lemma parse_short {bs : List Nat} (h : bs.length < EI_NIDENT) :
    parse bs = .error (.truncatedHeader bs) := by
  have htk : bs.take EI_NIDENT = bs := List.take_of_length_le (Nat.le_of_lt h)
  simp [parse, htk, Nat.min_eq_left (Nat.le_of_lt h), h]

/-- C3: every input shorter than 16 bytes is rejected as a truncated header
carrying the bytes actually available, never as a bad magic number (the
length check precedes the magic check), and every buffer access stays inside
the fixed 16-byte buffer. -/
theorem parse_truncated (bs : List Nat) (h : bs.length < EI_NIDENT) :
    parse bs = .error (.truncatedHeader bs) ∧
    (∀ m, parse bs ≠ .error (.badMagic m)) ∧
    (identBuf bs).length = EI_NIDENT :=
  ⟨parse_short h, fun m hm => by rw [parse_short h] at hm; simp at hm,
    identBuf_length bs⟩

/-- C3 witness: the two-byte input 7F 45 (a valid magic prefix) is reported
as a truncated header, not as a bad magic number. -/
theorem parse_truncated_witness :
    parse [0x7F, 0x45] = .error (.truncatedHeader [0x7F, 0x45]) :=
  (parse_truncated [0x7F, 0x45] (by decide)).1

/-- C4: every 16-byte input whose first four bytes differ from the ELF magic
is rejected as a bad magic number carrying exactly the four actual bytes at
offsets 0..4. -/
theorem parse_bad_magic (bs : List Nat) (h : bs.length = EI_NIDENT)
    (hm : bs.take SELFMAG ≠ ELFMAG) :
    parse bs = .error (.badMagic (bs.take SELFMAG)) :=
  parse_full_badmagic h hm

/-- C4 witness: sixteen zero bytes are rejected as a bad magic number
carrying the four zero bytes found at offsets 0..4. -/
theorem parse_bad_magic_witness :
    parse [0, 0, 0, 0, 0, 0, 0, 0, 0, 0, 0, 0, 0, 0, 0, 0] =
      .error (.badMagic [0, 0, 0, 0]) :=
  parse_bad_magic [0, 0, 0, 0, 0, 0, 0, 0, 0, 0, 0, 0, 0, 0, 0, 0]
    (by decide) (by decide)

lemma decodeClass_err {b : Nat} (h64 : b ≠ ELFCLASS64) (h32 : b ≠ ELFCLASS32) :
    decodeClass b = .error (.unsupportedClass b) := by
  simp [decodeClass, h64, h32]

lemma decodeClass_error_shape {b : Nat} {e : IdentError}
    (h : decodeClass b = .error e) : e = .unsupportedClass b := by
  by_cases h64 : b = ELFCLASS64
  · simp [decodeClass, ELFCLASS32, ELFCLASS64, h64] at h
  · by_cases h32 : b = ELFCLASS32
    · simp [decodeClass, ELFCLASS32, ELFCLASS64, h64, h32] at h
    · simp [decodeClass, h64, h32] at h
      exact h.symm

lemma decodeClass_ok_of {b : Nat}
    (h : b = ELFCLASS32 ∨ b = ELFCLASS64) : ∃ c, decodeClass b = .ok c := by
  rcases h with h | h <;> subst h <;> exact ⟨_, rfl⟩

lemma decodeData_err {b : Nat} (hl : b ≠ ELFDATA2LSB) (hm : b ≠ ELFDATA2MSB) :
    decodeData b = .error (.unsupportedEncoding b) := by
  simp [decodeData, hl, hm]

lemma decodeData_error_shape {b : Nat} {e : IdentError}
    (h : decodeData b = .error e) : e = .unsupportedEncoding b := by
  by_cases hl : b = ELFDATA2LSB
  · simp [decodeData, ELFDATA2LSB, ELFDATA2MSB, hl] at h
  · by_cases hm : b = ELFDATA2MSB
    · simp [decodeData, ELFDATA2LSB, ELFDATA2MSB, hl, hm] at h
    · simp [decodeData, hl, hm] at h
      exact h.symm

lemma decodeData_ok_of {b : Nat}
    (h : b = ELFDATA2LSB ∨ b = ELFDATA2MSB) : ∃ d, decodeData b = .ok d := by
  rcases h with h | h <;> subst h <;> exact ⟨_, rfl⟩

lemma decodeVersion_ok {b : Nat} (h : b = EV_CURRENT) :
    decodeVersion b = .ok .current := by
  simp [decodeVersion, h]

lemma decodeVersion_error_shape {b : Nat} {e : IdentError}
    (h : decodeVersion b = .error e) : e = .unsupportedVersion b := by
  by_cases hv : b = EV_CURRENT
  · simp [decodeVersion, hv] at h
  · simp [decodeVersion, hv] at h
    exact h.symm

lemma decodeOsAbi_err {b : Nat} (hs : b ≠ ELFOSABI_SYSV)
    (hl : b ≠ ELFOSABI_LINUX) :
    decodeOsAbi b = .error (.unsupportedOsAbi b) := by
  simp [decodeOsAbi, hs, hl]

lemma decodeOsAbi_error_shape {b : Nat} {e : IdentError}
    (h : decodeOsAbi b = .error e) : e = .unsupportedOsAbi b := by
  by_cases hs : b = ELFOSABI_SYSV
  · simp [decodeOsAbi, ELFOSABI_SYSV, ELFOSABI_LINUX, hs] at h
  · by_cases hl : b = ELFOSABI_LINUX
    · simp [decodeOsAbi, ELFOSABI_SYSV, ELFOSABI_LINUX, hs, hl] at h
    · simp [decodeOsAbi, hs, hl] at h
      exact h.symm

lemma decodeOsAbi_ok_of {b : Nat}
    (h : b = ELFOSABI_SYSV ∨ b = ELFOSABI_LINUX) :
    ∃ o, decodeOsAbi b = .ok o := by
  rcases h with h | h <;> subst h <;> exact ⟨_, rfl⟩

lemma parseFields_classErr {ident : List Nat} {e : IdentError}
    (h : decodeClass (ident.getD EI_CLASS 0) = .error e) :
    parseFields ident = .error e := by
  unfold parseFields
  rw [h]

lemma parseFields_classOk {ident : List Nat} {c : ElfClass}
    (h : decodeClass (ident.getD EI_CLASS 0) = .ok c) :
    parseFields ident = checkData ident c := by
  unfold parseFields
  rw [h]

lemma checkData_dataErr {ident : List Nat} {c : ElfClass} {e : IdentError}
    (h : decodeData (ident.getD EI_DATA 0) = .error e) :
    checkData ident c = .error e := by
  unfold checkData
  rw [h]

lemma checkData_dataOk {ident : List Nat} {c : ElfClass} {d : DataEncoding}
    (h : decodeData (ident.getD EI_DATA 0) = .ok d) :
    checkData ident c = checkVersion ident c d := by
  unfold checkData
  rw [h]

lemma checkVersion_vErr {ident : List Nat} {c : ElfClass} {d : DataEncoding}
    {e : IdentError} (h : decodeVersion (ident.getD EI_VERSION 0) = .error e) :
    checkVersion ident c d = .error e := by
  unfold checkVersion
  rw [h]

lemma checkVersion_vOk {ident : List Nat} {c : ElfClass} {d : DataEncoding}
    {v : ElfVersion} (h : decodeVersion (ident.getD EI_VERSION 0) = .ok v) :
    checkVersion ident c d = checkOsAbi ident c d v := by
  unfold checkVersion
  rw [h]

lemma checkOsAbi_oErr {ident : List Nat} {c : ElfClass} {d : DataEncoding}
    {v : ElfVersion} {e : IdentError}
    (h : decodeOsAbi (ident.getD EI_OSABI 0) = .error e) :
    checkOsAbi ident c d v = .error e := by
  unfold checkOsAbi
  rw [h]

lemma checkOsAbi_oOk {ident : List Nat} {c : ElfClass} {d : DataEncoding}
    {v : ElfVersion} {o : OsAbi}
    (h : decodeOsAbi (ident.getD EI_OSABI 0) = .ok o) :
    checkOsAbi ident c d v = checkAbi ident c d v o := by
  unfold checkOsAbi
  rw [h]

lemma checkAbi_zero {ident : List Nat} {c : ElfClass} {d : DataEncoding}
    {v : ElfVersion} {o : OsAbi} (h : ident.getD EI_ABIVERSION 0 = 0) :
    checkAbi ident c d v o =
      .ok { eclass := c, data_encoding := d, version := v, os_abi := o,
            abi_version := 0 } := by
  simp only [checkAbi]
  rw [h]
  simp

lemma checkAbi_nonzero {ident : List Nat} {c : ElfClass} {d : DataEncoding}
    {v : ElfVersion} {o : OsAbi} (h : ident.getD EI_ABIVERSION 0 ≠ 0) :
    checkAbi ident c d v o =
      .error (.unsupportedAbiVersion (ident.getD EI_ABIVERSION 0)) := by
  simp only [checkAbi]
  rw [if_pos h]

lemma parse_ge_magic {bs : List Nat} (h : EI_NIDENT ≤ bs.length)
    (hm : (identBuf bs).take SELFMAG = ELFMAG) :
    parse bs = parseFields (identBuf bs) := by
  have hge : 16 ≤ bs.length := h
  have h16 : ¬bs.length < 16 := by omega
  have h4 : ¬bs.length < 4 := by omega
  have hm4 : (identBuf bs).take 4 = ELFMAG := by simpa [SELFMAG] using hm
  simp [parse, hm4, EI_NIDENT, SELFMAG, h16, h4]

lemma parse_ge_badmagic {bs : List Nat} (h : EI_NIDENT ≤ bs.length)
    (hm : (identBuf bs).take SELFMAG ≠ ELFMAG) :
    parse bs = .error (.badMagic ((identBuf bs).take SELFMAG)) := by
  have hge : 16 ≤ bs.length := h
  have h16 : ¬bs.length < 16 := by omega
  have h4 : ¬bs.length < 4 := by omega
  have hm4 : ¬(identBuf bs).take 4 = ELFMAG := by simpa [SELFMAG] using hm
  simp [parse, hm4, EI_NIDENT, SELFMAG, h16, h4]

lemma checkAbi_error_shape {ident : List Nat} {c : ElfClass}
    {d : DataEncoding} {v : ElfVersion} {o : OsAbi} {e : IdentError}
    (h : checkAbi ident c d v o = .error e) :
    e = .unsupportedAbiVersion (ident.getD EI_ABIVERSION 0) := by
  by_cases ha : ident.getD EI_ABIVERSION 0 = 0
  · rw [checkAbi_zero ha] at h
    simp at h
  · rw [checkAbi_nonzero ha] at h
    simpa using h.symm

lemma parseFields_error_shape {ident : List Nat} {e : IdentError}
    (h : parseFields ident = .error e) :
    (∃ b, e = .unsupportedClass b) ∨ (∃ b, e = .unsupportedEncoding b) ∨
    (∃ b, e = .unsupportedVersion b) ∨ (∃ b, e = .unsupportedOsAbi b) ∨
    (∃ b, e = .unsupportedAbiVersion b) := by
  cases hc : decodeClass (ident.getD EI_CLASS 0) with
  | error e1 =>
    rw [parseFields_classErr hc] at h
    obtain rfl : e1 = e := by simpa using h
    exact .inl ⟨_, decodeClass_error_shape hc⟩
  | ok c =>
    rw [parseFields_classOk hc] at h
    cases hd : decodeData (ident.getD EI_DATA 0) with
    | error e1 =>
      rw [checkData_dataErr hd] at h
      obtain rfl : e1 = e := by simpa using h
      exact .inr (.inl ⟨_, decodeData_error_shape hd⟩)
    | ok d =>
      rw [checkData_dataOk hd] at h
      cases hv : decodeVersion (ident.getD EI_VERSION 0) with
      | error e1 =>
        rw [checkVersion_vErr hv] at h
        obtain rfl : e1 = e := by simpa using h
        exact .inr (.inr (.inl ⟨_, decodeVersion_error_shape hv⟩))
      | ok v =>
        rw [checkVersion_vOk hv] at h
        cases ho : decodeOsAbi (ident.getD EI_OSABI 0) with
        | error e1 =>
          rw [checkOsAbi_oErr ho] at h
          obtain rfl : e1 = e := by simpa using h
          exact .inr (.inr (.inr (.inl ⟨_, decodeOsAbi_error_shape ho⟩)))
        | ok o =>
          rw [checkOsAbi_oOk ho] at h
          exact .inr (.inr (.inr (.inr ⟨_, checkAbi_error_shape h⟩)))

/-- C10: the short-magic-read guard of line 130 is dead code: no input makes
the run fail with its outcome, since the length guard of line 128 already
rejects every read shorter than 16 bytes and 16 exceeds 4. -/
theorem magic_read_guard_unreachable (bs : List Nat) :
    parse bs ≠ .error .magicReadFailed := by
  intro h
  by_cases hlen : bs.length < EI_NIDENT
  · rw [parse_short hlen] at h
    simp at h
  · have hge : EI_NIDENT ≤ bs.length := Nat.le_of_not_lt hlen
    by_cases hm : (identBuf bs).take SELFMAG = ELFMAG
    · rw [parse_ge_magic hge hm] at h
      rcases parseFields_error_shape h with ⟨b, hb⟩ | ⟨b, hb⟩ | ⟨b, hb⟩ |
        ⟨b, hb⟩ | ⟨b, hb⟩ <;> simp at hb
    · rw [parse_ge_badmagic hge hm] at h
      simp at h

/-- C10 witness: on the empty input the run fails with the truncated-header
outcome of line 128, not with the short-magic-read outcome of line 130. -/
theorem magic_read_guard_witness :
    parse [] = .error (.truncatedHeader []) ∧
    parse [] ≠ .error .magicReadFailed :=
  ⟨rfl, magic_read_guard_unreachable []⟩

/-- C5: once magic, class, encoding and version have been accepted, the
OS/ABI byte at offset 7 is accepted only when it is 0 (System V) or
3 (Linux); every other value, including 1 (HP-UX, recognised by the wider
ELF standard), fails the run with that value in an unsupported-OS/ABI
error. -/
theorem osabi_check (bs : List Nat) (hlen : bs.length = EI_NIDENT)
    (hm : bs.take SELFMAG = ELFMAG)
    (hc : bs.getD EI_CLASS 0 = ELFCLASS32 ∨ bs.getD EI_CLASS 0 = ELFCLASS64)
    (hd : bs.getD EI_DATA 0 = ELFDATA2LSB ∨ bs.getD EI_DATA 0 = ELFDATA2MSB)
    (hv : bs.getD EI_VERSION 0 = EV_CURRENT) :
    (bs.getD EI_OSABI 0 ≠ ELFOSABI_SYSV → bs.getD EI_OSABI 0 ≠ ELFOSABI_LINUX →
      parse bs = .error (.unsupportedOsAbi (bs.getD EI_OSABI 0))) ∧
    ((bs.getD EI_OSABI 0 = ELFOSABI_SYSV ∨ bs.getD EI_OSABI 0 = ELFOSABI_LINUX) →
      ∀ w, parse bs ≠ .error (.unsupportedOsAbi w)) := by
  obtain ⟨c, hcok⟩ := decodeClass_ok_of hc
  obtain ⟨d, hdok⟩ := decodeData_ok_of hd
  have hchain : parse bs = checkOsAbi bs c d .current := by
    rw [parse_full_magic hlen hm, parseFields_classOk hcok,
      checkData_dataOk hdok, checkVersion_vOk (decodeVersion_ok hv)]
  constructor
  · intro hs hl
    rw [hchain, checkOsAbi_oErr (decodeOsAbi_err hs hl)]
  · rintro ho w hw
    obtain ⟨o, hook⟩ := decodeOsAbi_ok_of ho
    rw [hchain, checkOsAbi_oOk hook] at hw
    by_cases ha : bs.getD EI_ABIVERSION 0 = 0
    · rw [checkAbi_zero ha] at hw
      simp at hw
    · rw [checkAbi_nonzero ha] at hw
      simp at hw

/-- C5 witness: the canonical header with the OS/ABI byte changed to
1 (HP-UX) fails with that value in an unsupported-OS/ABI error. -/
theorem osabi_check_witness :
    parse [0x7F, 0x45, 0x4C, 0x46, 2, 1, 1, 1, 0, 0, 0, 0, 0, 0, 0, 0] =
      .error (.unsupportedOsAbi 1) :=
  (osabi_check [0x7F, 0x45, 0x4C, 0x46, 2, 1, 1, 1, 0, 0, 0, 0, 0, 0, 0, 0]
    (by decide) (by decide) (by decide) (by decide) (by decide)).1
    (by decide) (by decide)

/-- C7: once every earlier check has been accepted, a nonzero ABI-version
byte at offset 8 fails the run with that value in an
unsupported-ABI-version error, and only the value 0 lets the run succeed. -/
theorem abi_version_check (bs : List Nat) (hlen : bs.length = EI_NIDENT)
    (hm : bs.take SELFMAG = ELFMAG)
    (hc : bs.getD EI_CLASS 0 = ELFCLASS32 ∨ bs.getD EI_CLASS 0 = ELFCLASS64)
    (hd : bs.getD EI_DATA 0 = ELFDATA2LSB ∨ bs.getD EI_DATA 0 = ELFDATA2MSB)
    (hv : bs.getD EI_VERSION 0 = EV_CURRENT)
    (ho : bs.getD EI_OSABI 0 = ELFOSABI_SYSV ∨
      bs.getD EI_OSABI 0 = ELFOSABI_LINUX) :
    (bs.getD EI_ABIVERSION 0 ≠ 0 →
      parse bs = .error (.unsupportedAbiVersion (bs.getD EI_ABIVERSION 0))) ∧
    (bs.getD EI_ABIVERSION 0 = 0 →
      ∃ r, parse bs = .ok r ∧ r.abi_version = 0) := by
  obtain ⟨c, hcok⟩ := decodeClass_ok_of hc
  obtain ⟨d, hdok⟩ := decodeData_ok_of hd
  obtain ⟨o, hook⟩ := decodeOsAbi_ok_of ho
  have hchain : parse bs = checkAbi bs c d .current o := by
    rw [parse_full_magic hlen hm, parseFields_classOk hcok,
      checkData_dataOk hdok, checkVersion_vOk (decodeVersion_ok hv),
      checkOsAbi_oOk hook]
  constructor
  · intro ha
    rw [hchain, checkAbi_nonzero ha]
  · intro ha
    exact ⟨_, by rw [hchain, checkAbi_zero ha], rfl⟩

/-- C7 witness: the canonical header with the ABI-version byte changed to 5
fails with that value in an unsupported-ABI-version error. -/
theorem abi_version_check_witness :
    parse [0x7F, 0x45, 0x4C, 0x46, 2, 1, 1, 0, 5, 0, 0, 0, 0, 0, 0, 0] =
      .error (.unsupportedAbiVersion 5) :=
  (abi_version_check
    [0x7F, 0x45, 0x4C, 0x46, 2, 1, 1, 0, 5, 0, 0, 0, 0, 0, 0, 0]
    (by decide) (by decide) (by decide) (by decide) (by decide)
    (by decide)).1 (by decide)

lemma checkData_shape (ident : List Nat) :
    (∃ e, ∀ c, checkData ident c = .error e) ∨
    (∃ d v o, ∀ c, checkData ident c =
      .ok { eclass := c, data_encoding := d, version := v, os_abi := o,
            abi_version := 0 }) := by
  cases hd : decodeData (ident.getD EI_DATA 0) with
  | error e => exact .inl ⟨e, fun c => checkData_dataErr hd⟩
  | ok d =>
    cases hv : decodeVersion (ident.getD EI_VERSION 0) with
    | error e =>
      exact .inl ⟨e, fun c => by rw [checkData_dataOk hd, checkVersion_vErr hv]⟩
    | ok v =>
      cases ho : decodeOsAbi (ident.getD EI_OSABI 0) with
      | error e =>
        exact .inl ⟨e, fun c => by
          rw [checkData_dataOk hd, checkVersion_vOk hv, checkOsAbi_oErr ho]⟩
      | ok o =>
        by_cases ha : ident.getD EI_ABIVERSION 0 = 0
        · exact .inr ⟨d, v, o, fun c => by
            rw [checkData_dataOk hd, checkVersion_vOk hv, checkOsAbi_oOk ho,
              checkAbi_zero ha]⟩
        · exact .inl ⟨_, fun c => by
            rw [checkData_dataOk hd, checkVersion_vOk hv, checkOsAbi_oOk ho,
              checkAbi_nonzero ha]⟩

lemma checkVersion_shape (ident : List Nat) (c : ElfClass) :
    (∃ e, ∀ d, checkVersion ident c d = .error e) ∨
    (∃ v o, ∀ d, checkVersion ident c d =
      .ok { eclass := c, data_encoding := d, version := v, os_abi := o,
            abi_version := 0 }) := by
  cases hv : decodeVersion (ident.getD EI_VERSION 0) with
  | error e => exact .inl ⟨e, fun d => checkVersion_vErr hv⟩
  | ok v =>
    cases ho : decodeOsAbi (ident.getD EI_OSABI 0) with
    | error e =>
      exact .inl ⟨e, fun d => by rw [checkVersion_vOk hv, checkOsAbi_oErr ho]⟩
    | ok o =>
      by_cases ha : ident.getD EI_ABIVERSION 0 = 0
      · exact .inr ⟨v, o, fun d => by
          rw [checkVersion_vOk hv, checkOsAbi_oOk ho, checkAbi_zero ha]⟩
      · exact .inl ⟨_, fun d => by
          rw [checkVersion_vOk hv, checkOsAbi_oOk ho, checkAbi_nonzero ha]⟩

lemma checkData_congr {bs1 bs2 : List Nat}
    (h5 : bs1.getD EI_DATA 0 = bs2.getD EI_DATA 0)
    (h6 : bs1.getD EI_VERSION 0 = bs2.getD EI_VERSION 0)
    (h7 : bs1.getD EI_OSABI 0 = bs2.getD EI_OSABI 0)
    (h8 : bs1.getD EI_ABIVERSION 0 = bs2.getD EI_ABIVERSION 0)
    (c : ElfClass) : checkData bs1 c = checkData bs2 c := by
  unfold checkData checkVersion checkOsAbi checkAbi
  rw [h5, h6, h7, h8]

lemma checkVersion_congr {bs1 bs2 : List Nat}
    (h6 : bs1.getD EI_VERSION 0 = bs2.getD EI_VERSION 0)
    (h7 : bs1.getD EI_OSABI 0 = bs2.getD EI_OSABI 0)
    (h8 : bs1.getD EI_ABIVERSION 0 = bs2.getD EI_ABIVERSION 0)
    (c : ElfClass) (d : DataEncoding) :
    checkVersion bs1 c d = checkVersion bs2 c d := by
  unfold checkVersion checkOsAbi checkAbi
  rw [h6, h7, h8]

lemma parseFields_congr {bs1 bs2 : List Nat}
    (h4 : bs1.getD EI_CLASS 0 = bs2.getD EI_CLASS 0)
    (h5 : bs1.getD EI_DATA 0 = bs2.getD EI_DATA 0)
    (h6 : bs1.getD EI_VERSION 0 = bs2.getD EI_VERSION 0)
    (h7 : bs1.getD EI_OSABI 0 = bs2.getD EI_OSABI 0)
    (h8 : bs1.getD EI_ABIVERSION 0 = bs2.getD EI_ABIVERSION 0) :
    parseFields bs1 = parseFields bs2 := by
  unfold parseFields checkData checkVersion checkOsAbi checkAbi
  rw [h4, h5, h6, h7, h8]

/-- C2: on a 16-byte input passing the magic check, a class byte other than
1 or 2 fails the run with that value in an unsupported-class error; class
byte 1 decodes to ELF32 and class byte 2 to ELF64, and two inputs differing
only in having class byte 1 versus 2 behave identically apart from the
decoded class field. -/
theorem class_field_check :
    (∀ bs : List Nat, bs.length = EI_NIDENT → bs.take SELFMAG = ELFMAG →
      bs.getD EI_CLASS 0 ≠ ELFCLASS64 → bs.getD EI_CLASS 0 ≠ ELFCLASS32 →
      parse bs = .error (.unsupportedClass (bs.getD EI_CLASS 0))) ∧
    (∀ bs1 bs2 : List Nat, bs1.length = EI_NIDENT → bs2.length = EI_NIDENT →
      bs1.take SELFMAG = ELFMAG → bs2.take SELFMAG = ELFMAG →
      (∀ i, i ≠ EI_CLASS → bs1.getD i 0 = bs2.getD i 0) →
      bs1.getD EI_CLASS 0 = ELFCLASS32 → bs2.getD EI_CLASS 0 = ELFCLASS64 →
      (∀ e, parse bs1 = .error e ↔ parse bs2 = .error e) ∧
      (∀ r1, parse bs1 = .ok r1 → r1.eclass = .elf32) ∧
      (∀ r2, parse bs2 = .ok r2 → r2.eclass = .elf64) ∧
      (∀ r1 r2, parse bs1 = .ok r1 → parse bs2 = .ok r2 →
        r1.data_encoding = r2.data_encoding ∧ r1.version = r2.version ∧
        r1.os_abi = r2.os_abi ∧ r1.abi_version = r2.abi_version) ∧
      ((∃ r, parse bs1 = .ok r) ↔ ∃ r, parse bs2 = .ok r)) := by
  constructor
  · intro bs hlen hm h64 h32
    rw [parse_full_magic hlen hm, parseFields_classErr (decodeClass_err h64 h32)]
  · intro bs1 bs2 hl1 hl2 hm1 hm2 hagree hc1 hc2
    have hc1ok : decodeClass (bs1.getD EI_CLASS 0) = .ok .elf32 := by
      rw [hc1]
      rfl
    have hc2ok : decodeClass (bs2.getD EI_CLASS 0) = .ok .elf64 := by
      rw [hc2]
      rfl
    have hp1 : parse bs1 = checkData bs1 .elf32 := by
      rw [parse_full_magic hl1 hm1, parseFields_classOk hc1ok]
    have hp2 : parse bs2 = checkData bs1 .elf64 := by
      rw [parse_full_magic hl2 hm2, parseFields_classOk hc2ok]
      exact (checkData_congr (hagree EI_DATA (by decide))
        (hagree EI_VERSION (by decide)) (hagree EI_OSABI (by decide))
        (hagree EI_ABIVERSION (by decide)) .elf64).symm
    rcases checkData_shape bs1 with ⟨e0, herr⟩ | ⟨d, v, o, hok⟩
    · have e1 : parse bs1 = .error e0 := by rw [hp1, herr .elf32]
      have e2 : parse bs2 = .error e0 := by rw [hp2, herr .elf64]
      refine ⟨fun e => by rw [e1, e2], ?_, ?_, ?_, ?_⟩
      · intro r1 h
        rw [e1] at h
        simp at h
      · intro r2 h
        rw [e2] at h
        simp at h
      · intro r1 r2 hr1 hr2
        rw [e1] at hr1
        simp at hr1
      · constructor
        · rintro ⟨r, hr⟩
          rw [e1] at hr
          simp at hr
        · rintro ⟨r, hr⟩
          rw [e2] at hr
          simp at hr
    · have o1 : parse bs1 =
          .ok { eclass := .elf32, data_encoding := d, version := v,
                os_abi := o, abi_version := 0 } := by rw [hp1, hok .elf32]
      have o2 : parse bs2 =
          .ok { eclass := .elf64, data_encoding := d, version := v,
                os_abi := o, abi_version := 0 } := by rw [hp2, hok .elf64]
      refine ⟨fun e => by rw [o1, o2]; simp, ?_, ?_, ?_, ?_⟩
      · intro r1 h
        rw [o1] at h
        obtain rfl : _ = r1 := by simpa using h
        rfl
      · intro r2 h
        rw [o2] at h
        obtain rfl : _ = r2 := by simpa using h
        rfl
      · intro r1 r2 hr1 hr2
        rw [o1] at hr1
        rw [o2] at hr2
        obtain rfl : _ = r1 := by simpa using hr1
        obtain rfl : _ = r2 := by simpa using hr2
        exact ⟨rfl, rfl, rfl, rfl⟩
      · exact ⟨fun _ => ⟨_, o2⟩, fun _ => ⟨_, o1⟩⟩

/-- C2 witness: with class byte 3 the canonical header fails with an
unsupported-class error carrying 3, and the headers with class bytes 1 and 2
succeed as ELF32 and ELF64 respectively with all other fields unchanged. -/
theorem class_field_check_witness :
    parse [0x7F, 0x45, 0x4C, 0x46, 3, 1, 1, 0, 0, 0, 0, 0, 0, 0, 0, 0] =
      .error (.unsupportedClass 3) ∧
    (∀ r1, parse [0x7F, 0x45, 0x4C, 0x46, 1, 1, 1, 0, 0, 0, 0, 0, 0, 0, 0, 0] =
      .ok r1 → r1.eclass = .elf32) :=
  ⟨(class_field_check.1
      [0x7F, 0x45, 0x4C, 0x46, 3, 1, 1, 0, 0, 0, 0, 0, 0, 0, 0, 0]
      (by decide) (by decide) (by decide) (by decide)),
    (class_field_check.2
      [0x7F, 0x45, 0x4C, 0x46, 1, 1, 1, 0, 0, 0, 0, 0, 0, 0, 0, 0]
      [0x7F, 0x45, 0x4C, 0x46, 2, 1, 1, 0, 0, 0, 0, 0, 0, 0, 0, 0]
      (by decide) (by decide) (by decide) (by decide)
      (by intro i hi; rcases i with _ | _ | _ | _ | _ | i <;> simp_all [EI_CLASS])
      (by decide) (by decide)).2.1⟩

/-- C6: on an input passing the magic and class checks, a data-encoding byte
other than 1 or 2 fails the run with that value in an unsupported-encoding
error; encoding byte 1 decodes to little-endian and byte 2 to big-endian,
and two inputs differing only in having encoding byte 1 versus 2 behave
identically apart from the decoded encoding field. -/
theorem encoding_field_check :
    (∀ bs : List Nat, bs.length = EI_NIDENT → bs.take SELFMAG = ELFMAG →
      (bs.getD EI_CLASS 0 = ELFCLASS32 ∨ bs.getD EI_CLASS 0 = ELFCLASS64) →
      bs.getD EI_DATA 0 ≠ ELFDATA2LSB → bs.getD EI_DATA 0 ≠ ELFDATA2MSB →
      parse bs = .error (.unsupportedEncoding (bs.getD EI_DATA 0))) ∧
    (∀ bs1 bs2 : List Nat, bs1.length = EI_NIDENT → bs2.length = EI_NIDENT →
      bs1.take SELFMAG = ELFMAG → bs2.take SELFMAG = ELFMAG →
      (∀ i, i ≠ EI_DATA → bs1.getD i 0 = bs2.getD i 0) →
      (bs1.getD EI_CLASS 0 = ELFCLASS32 ∨ bs1.getD EI_CLASS 0 = ELFCLASS64) →
      bs1.getD EI_DATA 0 = ELFDATA2LSB → bs2.getD EI_DATA 0 = ELFDATA2MSB →
      (∀ e, parse bs1 = .error e ↔ parse bs2 = .error e) ∧
      (∀ r1, parse bs1 = .ok r1 → r1.data_encoding = .littleEndian) ∧
      (∀ r2, parse bs2 = .ok r2 → r2.data_encoding = .bigEndian) ∧
      (∀ r1 r2, parse bs1 = .ok r1 → parse bs2 = .ok r2 →
        r1.eclass = r2.eclass ∧ r1.version = r2.version ∧
        r1.os_abi = r2.os_abi ∧ r1.abi_version = r2.abi_version) ∧
      ((∃ r, parse bs1 = .ok r) ↔ ∃ r, parse bs2 = .ok r)) := by
  constructor
  · intro bs hlen hm hc hlsb hmsb
    obtain ⟨c, hcok⟩ := decodeClass_ok_of hc
    rw [parse_full_magic hlen hm, parseFields_classOk hcok,
      checkData_dataErr (decodeData_err hlsb hmsb)]
  · intro bs1 bs2 hl1 hl2 hm1 hm2 hagree hc hd1 hd2
    obtain ⟨c, hcok1⟩ := decodeClass_ok_of hc
    have hcok2 : decodeClass (bs2.getD EI_CLASS 0) = .ok c := by
      rw [← hagree EI_CLASS (by decide)]
      exact hcok1
    have hd1ok : decodeData (bs1.getD EI_DATA 0) = .ok .littleEndian := by
      rw [hd1]
      rfl
    have hd2ok : decodeData (bs2.getD EI_DATA 0) = .ok .bigEndian := by
      rw [hd2]
      rfl
    have hp1 : parse bs1 = checkVersion bs1 c .littleEndian := by
      rw [parse_full_magic hl1 hm1, parseFields_classOk hcok1,
        checkData_dataOk hd1ok]
    have hp2 : parse bs2 = checkVersion bs1 c .bigEndian := by
      rw [parse_full_magic hl2 hm2, parseFields_classOk hcok2,
        checkData_dataOk hd2ok]
      exact (checkVersion_congr (hagree EI_VERSION (by decide))
        (hagree EI_OSABI (by decide)) (hagree EI_ABIVERSION (by decide))
        c .bigEndian).symm
    rcases checkVersion_shape bs1 c with ⟨e0, herr⟩ | ⟨v, o, hok⟩
    · have e1 : parse bs1 = .error e0 := by rw [hp1, herr .littleEndian]
      have e2 : parse bs2 = .error e0 := by rw [hp2, herr .bigEndian]
      refine ⟨fun e => by rw [e1, e2], ?_, ?_, ?_, ?_⟩
      · intro r1 h
        rw [e1] at h
        simp at h
      · intro r2 h
        rw [e2] at h
        simp at h
      · intro r1 r2 hr1 hr2
        rw [e1] at hr1
        simp at hr1
      · constructor
        · rintro ⟨r, hr⟩
          rw [e1] at hr
          simp at hr
        · rintro ⟨r, hr⟩
          rw [e2] at hr
          simp at hr
    · have o1 : parse bs1 =
          .ok { eclass := c, data_encoding := .littleEndian, version := v,
                os_abi := o, abi_version := 0 } := by rw [hp1, hok .littleEndian]
      have o2 : parse bs2 =
          .ok { eclass := c, data_encoding := .bigEndian, version := v,
                os_abi := o, abi_version := 0 } := by rw [hp2, hok .bigEndian]
      refine ⟨fun e => by rw [o1, o2]; simp, ?_, ?_, ?_, ?_⟩
      · intro r1 h
        rw [o1] at h
        obtain rfl : _ = r1 := by simpa using h
        rfl
      · intro r2 h
        rw [o2] at h
        obtain rfl : _ = r2 := by simpa using h
        rfl
      · intro r1 r2 hr1 hr2
        rw [o1] at hr1
        rw [o2] at hr2
        obtain rfl : _ = r1 := by simpa using hr1
        obtain rfl : _ = r2 := by simpa using hr2
        exact ⟨rfl, rfl, rfl, rfl⟩
      · exact ⟨fun _ => ⟨_, o2⟩, fun _ => ⟨_, o1⟩⟩

/-- C6 witness: with encoding byte 0 the canonical header fails with an
unsupported-encoding error carrying 0, and the header with encoding byte 2
succeeds as big-endian. -/
theorem encoding_field_check_witness :
    parse [0x7F, 0x45, 0x4C, 0x46, 2, 0, 1, 0, 0, 0, 0, 0, 0, 0, 0, 0] =
      .error (.unsupportedEncoding 0) ∧
    (∀ r2, parse [0x7F, 0x45, 0x4C, 0x46, 2, 2, 1, 0, 0, 0, 0, 0, 0, 0, 0, 0] =
      .ok r2 → r2.data_encoding = .bigEndian) :=
  ⟨(encoding_field_check.1
      [0x7F, 0x45, 0x4C, 0x46, 2, 0, 1, 0, 0, 0, 0, 0, 0, 0, 0, 0]
      (by decide) (by decide) (by decide) (by decide) (by decide)),
    (encoding_field_check.2
      [0x7F, 0x45, 0x4C, 0x46, 2, 1, 1, 0, 0, 0, 0, 0, 0, 0, 0, 0]
      [0x7F, 0x45, 0x4C, 0x46, 2, 2, 1, 0, 0, 0, 0, 0, 0, 0, 0, 0]
      (by decide) (by decide) (by decide) (by decide)
      (by intro i hi; rcases i with _ | _ | _ | _ | _ | _ | i <;>
        simp_all [EI_DATA])
      (by decide) (by decide) (by decide)).2.2.1⟩

/-- C9: two 16-byte inputs agreeing on bytes 0..9 (magic, class, encoding,
version, OS/ABI, ABI version) and differing only in the padding bytes 9..16
parse to the same result: the padding bytes are never read by any check. -/
theorem padding_ignored (bs1 bs2 : List Nat)
    (h1 : bs1.length = EI_NIDENT) (h2 : bs2.length = EI_NIDENT)
    (h9 : bs1.take 9 = bs2.take 9) : parse bs1 = parse bs2 := by
  have hg : ∀ i, i < 9 → bs1.getD i 0 = bs2.getD i 0 := by
    intro i hi
    rw [List.getD_eq_getElem?_getD, List.getD_eq_getElem?_getD,
      ← List.getElem?_take_of_lt (l := bs1) (n := 9) hi,
      ← List.getElem?_take_of_lt (l := bs2) (n := 9) hi, h9]
  have hm : bs1.take SELFMAG = bs2.take SELFMAG := by
    have h4 := congrArg (List.take 4) h9
    simpa [List.take_take, SELFMAG] using h4
  by_cases hmag : bs1.take SELFMAG = ELFMAG
  · rw [parse_full_magic h1 hmag, parse_full_magic h2 (by rw [← hm]; exact hmag)]
    exact parseFields_congr (hg EI_CLASS (by decide)) (hg EI_DATA (by decide))
      (hg EI_VERSION (by decide)) (hg EI_OSABI (by decide))
      (hg EI_ABIVERSION (by decide))
  · rw [parse_full_badmagic h1 hmag,
      parse_full_badmagic h2 (by rw [← hm]; exact hmag), hm]

/-- C9 witness: the canonical header and the same header with all seven
padding bytes changed to FF parse to the same result. -/
theorem padding_ignored_witness :
    parse [0x7F, 0x45, 0x4C, 0x46, 2, 1, 1, 0, 0, 0, 0, 0, 0, 0, 0, 0] =
      parse [0x7F, 0x45, 0x4C, 0x46, 2, 1, 1, 0, 0,
        0xFF, 0xFF, 0xFF, 0xFF, 0xFF, 0xFF, 0xFF] :=
  padding_ignored
    [0x7F, 0x45, 0x4C, 0x46, 2, 1, 1, 0, 0, 0, 0, 0, 0, 0, 0, 0]
    [0x7F, 0x45, 0x4C, 0x46, 2, 1, 1, 0, 0,
      0xFF, 0xFF, 0xFF, 0xFF, 0xFF, 0xFF, 0xFF]
    (by decide) (by decide) (by decide)

/-- C8 (failing the claim): in the source every classified failure of the
validation chain is a `panic!` that terminates the whole process; run on the
empty input, on sixteen zero bytes, or on the canonical header with class
byte 3, `main` panics instead of returning the failure as a value.  Only a
fully valid header completes without aborting the process. -/
theorem main_panics_on_failure :
    mainRun [] = .panicked (.truncatedHeader []) ∧
    mainRun [0, 0, 0, 0, 0, 0, 0, 0, 0, 0, 0, 0, 0, 0, 0, 0] =
      .panicked (.badMagic [0, 0, 0, 0]) ∧
    mainRun [0x7F, 0x45, 0x4C, 0x46, 3, 1, 1, 0, 0, 0, 0, 0, 0, 0, 0, 0] =
      .panicked (.unsupportedClass 3) :=
  ⟨rfl, rfl, rfl⟩
